import Mathlib

/-!
# SlimDX value types, object-table lookup and Font wrapper

A shallow embedding of

* `source/math/Rational.cpp`                     (`Rational`)
* `source/direct3d9/AttributeWeights.cpp`        (`AttributeWeights`)
* `windows7/source/direct3d11/CommandList.cpp`   (`CommandList.FromPointer`)
* `trunk/source/Font.cpp`                        (`Font`)

Managed `int` values are integers; every `+` and `-` of the source on `int`
or `LONG` is followed by an explicit reduction into the signed 32-bit range.
-/

namespace SlimDX

/-! ## 32-bit arithmetic -/

/-- Reduction of an integer into the signed 32-bit range (two's complement). -/
def wrap32 (v : Int) : Int := (v + 2147483648) % 4294967296 - 2147483648

/-- Membership in the signed 32-bit range. -/
def isInt32 (v : Int) : Prop := -2147483648 ≤ v ∧ v < 2147483648

instance (v : Int) : Decidable (isInt32 v) := by
  unfold isInt32; exact inferInstance

/-- The `+` of two `int` values. -/
def add32 (a b : Int) : Int := wrap32 (a + b)

/-- The `-` of two `int` (or `LONG`) values. -/
def sub32 (a b : Int) : Int := wrap32 (a - b)

/-- The hash code of a boxed `System.Int32`: the value itself. -/
def int32GetHashCode (v : Int) : Int := v

/-! ## Managed object references -/

/-- An `Object^` seen from a value type `T`: the null reference, a boxed `T`
(its runtime type is `T`), or an object of some other runtime type. -/
inductive ManagedObject (T : Type) where
  | null : ManagedObject T
  | boxed (value : T) : ManagedObject T
  | otherType (typeId : Nat) : ManagedObject T

/-! ## Rational (source/math/Rational.cpp) -/

/-- The value type `Rational`: two `int` fields. -/
structure Rational where
  numerator : Int
  denominator : Int
deriving DecidableEq, Repr

namespace Rational

/-- The constructor `Rational::Rational( int numerator, int denominator )`. -/
def ctor (numerator denominator : Int) : Rational :=
  { numerator := numerator, denominator := denominator }

/-- The property getter `Rational::Numerator::get`. -/
def Numerator (self : Rational) : Int := self.numerator

/-- The property getter `Rational::Denominator::get`. -/
def Denominator (self : Rational) : Int := self.denominator

/-- The static `Rational::Equals( Rational% value1, Rational% value2 )`. -/
def EqualsStatic (value1 value2 : Rational) : Bool :=
  value1.numerator == value2.numerator && value1.denominator == value2.denominator

/-- The instance method `Rational::Equals( Rational value )`. -/
def Equals (self value : Rational) : Bool :=
  self.numerator == value.numerator && self.denominator == value.denominator

/-- The instance method `Rational::Equals( Object^ value )`. -/
def EqualsObject (self : Rational) (value : ManagedObject Rational) : Bool :=
  match value with
  | .null => false
  | .otherType _ => false
  | .boxed v => self.Equals v

/-- The `Rational::operator ==`. -/
def op_Equality (left right : Rational) : Bool := Rational.EqualsStatic left right

/-- The `Rational::operator !=`. -/
def op_Inequality (left right : Rational) : Bool := !Rational.EqualsStatic left right

/-- The method `Rational::GetHashCode`. -/
def GetHashCode (self : Rational) : Int :=
  add32 (int32GetHashCode self.numerator) (int32GetHashCode self.denominator)

end Rational

/-! ## AttributeWeights (source/direct3d9/AttributeWeights.cpp)

The header declaring the fields is not among the sources, so the field type
`F`, its `==` (a `BEq F`) and its `GetHashCode` (a function `F → Int`) are
parameters. -/

/-- The value type `AttributeWeights`: fifteen fields of one type. -/
structure AttributeWeights (F : Type) where
  Position : F
  Boundary : F
  Normal : F
  Diffuse : F
  Specular : F
  TextureCoordinate1 : F
  TextureCoordinate2 : F
  TextureCoordinate3 : F
  TextureCoordinate4 : F
  TextureCoordinate5 : F
  TextureCoordinate6 : F
  TextureCoordinate7 : F
  TextureCoordinate8 : F
  Tangent : F
  Binormal : F

namespace AttributeWeights

variable {F : Type}

/-- The static `AttributeWeights::Equals( AttributeWeights% value1, AttributeWeights% value2 )`. -/
def EqualsStatic [BEq F] (value1 value2 : AttributeWeights F) : Bool :=
  value1.Position == value2.Position && value1.Boundary == value2.Boundary
    && value1.Normal == value2.Normal
    && value1.Diffuse == value2.Diffuse && value1.Specular == value2.Specular
    && value1.TextureCoordinate1 == value2.TextureCoordinate1
    && value1.TextureCoordinate2 == value2.TextureCoordinate2
    && value1.TextureCoordinate3 == value2.TextureCoordinate3
    && value1.TextureCoordinate4 == value2.TextureCoordinate4
    && value1.TextureCoordinate5 == value2.TextureCoordinate5
    && value1.TextureCoordinate6 == value2.TextureCoordinate6
    && value1.TextureCoordinate7 == value2.TextureCoordinate7
    && value1.TextureCoordinate8 == value2.TextureCoordinate8
    && value1.Tangent == value2.Tangent && value1.Binormal == value2.Binormal

/-- The instance method `AttributeWeights::Equals( AttributeWeights value )`. -/
def Equals [BEq F] (self value : AttributeWeights F) : Bool :=
  self.Position == value.Position && self.Boundary == value.Boundary
    && self.Normal == value.Normal
    && self.Diffuse == value.Diffuse && self.Specular == value.Specular
    && self.TextureCoordinate1 == value.TextureCoordinate1
    && self.TextureCoordinate2 == value.TextureCoordinate2
    && self.TextureCoordinate3 == value.TextureCoordinate3
    && self.TextureCoordinate4 == value.TextureCoordinate4
    && self.TextureCoordinate5 == value.TextureCoordinate5
    && self.TextureCoordinate6 == value.TextureCoordinate6
    && self.TextureCoordinate7 == value.TextureCoordinate7
    && self.TextureCoordinate8 == value.TextureCoordinate8
    && self.Tangent == value.Tangent && self.Binormal == value.Binormal

/-- The instance method `AttributeWeights::Equals( Object^ value )`. -/
def EqualsObject [BEq F] (self : AttributeWeights F)
    (value : ManagedObject (AttributeWeights F)) : Bool :=
  match value with
  | .null => false
  | .otherType _ => false
  | .boxed v => self.Equals v

/-- The `AttributeWeights::operator ==`. -/
def op_Equality [BEq F] (left right : AttributeWeights F) : Bool :=
  AttributeWeights.EqualsStatic left right

/-- The `AttributeWeights::operator !=`. -/
def op_Inequality [BEq F] (left right : AttributeWeights F) : Bool :=
  !AttributeWeights.EqualsStatic left right

/-- The method `AttributeWeights::GetHashCode`; `hash` is the `GetHashCode` of
the field type. -/
def GetHashCode (hash : F → Int) (self : AttributeWeights F) : Int :=
  add32 (add32 (add32 (add32 (add32 (add32 (add32 (add32 (add32 (add32 (add32
    (add32 (add32 (add32
      (hash self.Position) (hash self.Boundary)) (hash self.Normal))
      (hash self.Diffuse)) (hash self.Specular)) (hash self.TextureCoordinate1))
      (hash self.TextureCoordinate2)) (hash self.TextureCoordinate3))
      (hash self.TextureCoordinate4)) (hash self.TextureCoordinate5))
      (hash self.TextureCoordinate6)) (hash self.TextureCoordinate7))
      (hash self.TextureCoordinate8)) (hash self.Tangent)) (hash self.Binormal)

/-- The names of the fifteen fields. -/
inductive Field where
  | Position | Boundary | Normal | Diffuse | Specular
  | TextureCoordinate1 | TextureCoordinate2 | TextureCoordinate3 | TextureCoordinate4
  | TextureCoordinate5 | TextureCoordinate6 | TextureCoordinate7 | TextureCoordinate8
  | Tangent | Binormal
deriving DecidableEq, Repr

/-- Reading the field of the given name. -/
def get (a : AttributeWeights F) : Field → F
  | .Position => a.Position
  | .Boundary => a.Boundary
  | .Normal => a.Normal
  | .Diffuse => a.Diffuse
  | .Specular => a.Specular
  | .TextureCoordinate1 => a.TextureCoordinate1
  | .TextureCoordinate2 => a.TextureCoordinate2
  | .TextureCoordinate3 => a.TextureCoordinate3
  | .TextureCoordinate4 => a.TextureCoordinate4
  | .TextureCoordinate5 => a.TextureCoordinate5
  | .TextureCoordinate6 => a.TextureCoordinate6
  | .TextureCoordinate7 => a.TextureCoordinate7
  | .TextureCoordinate8 => a.TextureCoordinate8
  | .Tangent => a.Tangent
  | .Binormal => a.Binormal

/-- Assigning the field of the given name, every other field kept. -/
def set (a : AttributeWeights F) (fld : Field) (v : F) : AttributeWeights F :=
  match fld with
  | .Position => { a with Position := v }
  | .Boundary => { a with Boundary := v }
  | .Normal => { a with Normal := v }
  | .Diffuse => { a with Diffuse := v }
  | .Specular => { a with Specular := v }
  | .TextureCoordinate1 => { a with TextureCoordinate1 := v }
  | .TextureCoordinate2 => { a with TextureCoordinate2 := v }
  | .TextureCoordinate3 => { a with TextureCoordinate3 := v }
  | .TextureCoordinate4 => { a with TextureCoordinate4 := v }
  | .TextureCoordinate5 => { a with TextureCoordinate5 := v }
  | .TextureCoordinate6 => { a with TextureCoordinate6 := v }
  | .TextureCoordinate7 => { a with TextureCoordinate7 := v }
  | .TextureCoordinate8 => { a with TextureCoordinate8 := v }
  | .Tangent => { a with Tangent := v }
  | .Binormal => { a with Binormal := v }

/-- A value whose fifteen fields hold 1 to 15, in declaration order. -/
def sample : AttributeWeights Int :=
  { Position := 1, Boundary := 2, Normal := 3, Diffuse := 4, Specular := 5,
    TextureCoordinate1 := 6, TextureCoordinate2 := 7, TextureCoordinate3 := 8,
    TextureCoordinate4 := 9, TextureCoordinate5 := 10, TextureCoordinate6 := 11,
    TextureCoordinate7 := 12, TextureCoordinate8 := 13, Tangent := 14, Binormal := 15 }

end AttributeWeights

/-! ## Managed exceptions -/

/-- The managed exceptions raised by the embedded code. -/
inductive ManagedException where
  | ArgumentNullException (paramName : String) : ManagedException
  | InvalidCastException : ManagedException
  | GraphicsException (hr : Int) : ManagedException
deriving DecidableEq, Repr

/-! ## The object table and CommandList (windows7/source/direct3d11/CommandList.cpp) -/

/-- A native pointer, also its `IntPtr` form; `0` is the null pointer. -/
abbrev Ptr := Nat

/-- The runtime type of a wrapper held by the object table: `CommandList`, or
another wrapper class (`DeviceChild` and similar types share the table). -/
inductive WrapperType where
  | CommandList : WrapperType
  | Other (classId : Nat) : WrapperType
deriving DecidableEq, Repr

/-- A managed wrapper instance: its identity, runtime type and native pointer. -/
structure ComObject where
  identity : Nat
  runtimeType : WrapperType
  pointer : Ptr
deriving DecidableEq, Repr

/-- The state the lookup works on: the object table, the native reference
count of every pointer, and the number of wrappers constructed so far. -/
structure Runtime where
  table : List (Ptr × ComObject)
  refCount : Ptr → Int
  constructed : Nat

/-- Modelled from the spec: `ObjectTable::Find` is not among the sources; the
table is "a hash map keyed by pointer identity", so the lookup returns the
wrapper stored under the pointer, or null when there is none. -/
def ObjectTable.Find (rt : Runtime) (pointer : Ptr) : Option ComObject :=
  rt.table.lookup pointer

/-- The native `IUnknown::Release`: one decrement of the reference count of the
pointer, every other count untouched. -/
def Release (rt : Runtime) (pointer : Ptr) : Runtime :=
  { rt with refCount := fun q => if q = pointer then rt.refCount q - 1 else rt.refCount q }

/-- The `safe_cast<CommandList^>` of a reference: null stays null, a
`CommandList` passes, any other runtime type raises `InvalidCastException`. -/
def safe_cast_CommandList (o : Option ComObject) : Except ManagedException (Option ComObject) :=
  match o with
  | none => .ok none
  | some w =>
    if w.runtimeType = WrapperType.CommandList then .ok (some w)
    else .error ManagedException.InvalidCastException

/-- Modelled from the spec: `ComObject::Construct` is not among the sources;
the spec has the lookup "construct a new wrapper and register it", so the
constructor allocates a wrapper for the pointer and adds it to the table. -/
def ComObject.Construct (rt : Runtime) (pointer : Ptr) : ComObject × Runtime :=
  let w : ComObject :=
    { identity := rt.constructed, runtimeType := WrapperType.CommandList, pointer := pointer }
  (w, { rt with table := (pointer, w) :: rt.table, constructed := rt.constructed + 1 })

/-- The constructor `CommandList::CommandList( ID3D11CommandList* pointer )`. -/
def CommandList.ctor (rt : Runtime) (pointer : Ptr) : ComObject × Runtime :=
  ComObject.Construct rt pointer

/-- The constructor `CommandList::CommandList( IntPtr pointer )`. -/
def CommandList.ctorIntPtr (rt : Runtime) (pointer : Ptr) : ComObject × Runtime :=
  ComObject.Construct rt pointer

/-- The static `CommandList::FromPointer( ID3D11CommandList* pointer )`: the
returned reference (`none` is `nullptr`) or the exception, and the state after. -/
def CommandList.FromPointer (rt : Runtime) (pointer : Ptr) :
    Except ManagedException (Option ComObject) × Runtime :=
  if pointer = 0 then (.ok none, rt)
  else
    match safe_cast_CommandList (ObjectTable.Find rt pointer) with
    | .error e => (.error e, rt)
    | .ok (some tableEntry) => (.ok (some tableEntry), Release rt pointer)
    | .ok none =>
      let r := CommandList.ctor rt pointer
      (.ok (some r.1), r.2)

/-- The static `CommandList::FromPointer( IntPtr pointer )`. -/
def CommandList.FromPointerIntPtr (rt : Runtime) (pointer : Ptr) :
    Except ManagedException (Option ComObject) × Runtime :=
  if pointer = 0 then (.error (ManagedException.ArgumentNullException "pointer"), rt)
  else
    match safe_cast_CommandList (ObjectTable.Find rt pointer) with
    | .error e => (.error e, rt)
    | .ok (some tableEntry) => (.ok (some tableEntry), rt)
    | .ok none =>
      let r := CommandList.ctorIntPtr rt pointer
      (.ok (some r.1), r.2)

/-- The two overloads of `CommandList::FromPointer`. -/
inductive Overload where
  | native : Overload
  | intPtr : Overload
deriving DecidableEq, Repr

/-- A call of `CommandList::FromPointer` through the given overload. -/
def CommandList.call (ov : Overload) (rt : Runtime) (pointer : Ptr) :
    Except ManagedException (Option ComObject) × Runtime :=
  match ov with
  | .native => CommandList.FromPointer rt pointer
  | .intPtr => CommandList.FromPointerIntPtr rt pointer

/-- A sequence of `FromPointer` calls, run in order; results are dropped. -/
def CommandList.runCalls (rt : Runtime) : List (Overload × Ptr) → Runtime
  | [] => rt
  | c :: cs => CommandList.runCalls (CommandList.call c.1 rt c.2).2 cs

/-- Nothing was removed from the object table between two states: every
pointer registered in the first is registered with the same wrapper in the second. -/
def NoRemoval (rt1 rt2 : Runtime) : Prop :=
  ∀ q o, ObjectTable.Find rt1 q = some o → ObjectTable.Find rt2 q = some o

/-- The state with an empty table, all reference counts one and no wrapper built. -/
def Runtime.initial : Runtime :=
  { table := [], refCount := fun _ => 1, constructed := 0 }

/-- A `CommandList` wrapper of the native pointer 5. -/
def sampleCommandList : ComObject :=
  { identity := 0, runtimeType := WrapperType.CommandList, pointer := 5 }

/-- A wrapper of the native pointer 5 whose class is not `CommandList`. -/
def sampleOtherWrapper : ComObject :=
  { identity := 0, runtimeType := WrapperType.Other 1, pointer := 5 }

/-- A state whose table registers a `CommandList` wrapper for the pointer 5. -/
def Runtime.withCommandList : Runtime :=
  { table := [(5, sampleCommandList)], refCount := fun _ => 3, constructed := 1 }

/-- A state whose table registers a wrapper of another class for the pointer 5. -/
def Runtime.withOtherWrapper : Runtime :=
  { table := [(5, sampleOtherWrapper)], refCount := fun _ => 3, constructed := 1 }

/-! ## Font (trunk/source/Font.cpp)

The native font object, `D3DXCreateFont` and `GraphicsException::CheckHResult`
are not among the sources: the native side is a record of the values its
entry points return, and `CheckHResult` is a parameter of every method that
calls it. Every method returns the native calls it made, in order, with its
outcome. -/

/-- A managed `String^` as its UTF-16 code units; `Length` counts them. -/
abbrev ManagedString := List Nat

/-- The native `RECT`: four `LONG` fields. -/
structure RECT where
  left : Int
  top : Int
  right : Int
  bottom : Int
deriving DecidableEq, Repr

/-- The managed `System.Drawing.Rectangle`: four `int` fields. -/
structure Rectangle where
  X : Int
  Y : Int
  Width : Int
  Height : Int
deriving DecidableEq, Repr

namespace Rectangle

/-- The property `Rectangle.Left`. -/
def Left (r : Rectangle) : Int := r.X

/-- The property `Rectangle.Top`. -/
def Top (r : Rectangle) : Int := r.Y

/-- The property `Rectangle.Right`: `X + Width` as an `int`. -/
def Right (r : Rectangle) : Int := add32 r.X r.Width

/-- The property `Rectangle.Bottom`: `Y + Height` as an `int`. -/
def Bottom (r : Rectangle) : Int := add32 r.Y r.Height

end Rectangle

/-- The flags enumeration `DrawTextFormat`, kept symbolic: the two members the
source names, any other value, and the bitwise or of two values. -/
inductive DrawTextFormat where
  | NoClip : DrawTextFormat
  | CalcRect : DrawTextFormat
  | bits (value : Nat) : DrawTextFormat
  | or (a b : DrawTextFormat) : DrawTextFormat
deriving DecidableEq, Repr

/-- The managed `System.Drawing.Color`, as the value `ToArgb` returns. -/
structure Color where
  argb : Int
deriving DecidableEq, Repr

/-- The method `Color.ToArgb`. -/
def Color.ToArgb (c : Color) : Int := c.argb

/-- A managed `Sprite^` that is not null, with its `InternalPointer`. -/
structure Sprite where
  InternalPointer : Ptr
deriving DecidableEq, Repr

/-- A managed `Device^`, with its `InternalPointer`. -/
structure Device where
  InternalPointer : Ptr
deriving DecidableEq, Repr

/-- The native `D3DXFONT_DESC`. -/
structure D3DXFONT_DESC where
  Height : Int
  Width : Int
  Weight : Int
  MipLevels : Int
  Italic : Int
  CharSet : Int
  OutputPrecision : Int
  Quality : Int
  PitchAndFamily : Int
  FaceName : ManagedString
deriving DecidableEq, Repr

/-- The managed `FontDescription`. -/
structure FontDescription where
  Height : Int
  Width : Int
  Weight : Int
  MipLevels : Int
  Italic : Bool
  CharSet : Int
  OutputPrecision : Int
  Quality : Int
  PitchAndFamily : Int
  FaceName : ManagedString
deriving DecidableEq, Repr

/-- The arguments of the device constructor of `Font`, after the device. -/
structure FontArguments where
  height : Int
  width : Int
  weight : Int
  mipLevels : Int
  italic : Bool
  charSet : Int
  outputPrecision : Int
  quality : Int
  pitchAndFamily : Int
  faceName : ManagedString
deriving DecidableEq, Repr

/-- A call into the native library, with the arguments passed. -/
inductive NativeCall where
  | D3DXCreateFont (device : Ptr) (args : FontArguments) : NativeCall
  | DrawTextW (sprite : Ptr) (text : ManagedString) (count : Int) (rect : RECT)
      (format : DrawTextFormat) (color : Int) : NativeCall
  | PreloadCharacters (first last : Int) : NativeCall
  | PreloadGlyphs (first last : Int) : NativeCall
  | PreloadTextW (text : ManagedString) (count : Int) : NativeCall
  | OnLostDevice : NativeCall
  | OnResetDevice : NativeCall
  | GetDesc : NativeCall
  | GetDC : NativeCall
deriving DecidableEq, Repr

/-- The native `ID3DXFont`: what each entry point returns for its arguments.
`DrawTextW` returns its `INT` and the rectangle it leaves in the `RECT`. -/
structure ID3DXFont where
  DrawTextW : Ptr → ManagedString → Int → RECT → DrawTextFormat → Int → Int × RECT
  PreloadCharacters : Int → Int → Int
  PreloadGlyphs : Int → Int → Int
  PreloadTextW : ManagedString → Int → Int
  OnLostDevice : Int
  OnResetDevice : Int
  GetDesc : Int × D3DXFONT_DESC
  GetDC : Ptr

/-- The managed `Font`: the native font it wraps (`m_Font`). -/
structure Font where
  m_Font : ID3DXFont

/-- The native calls a method made, in order, and how it ended. -/
structure Traced (α : Type) where
  calls : List NativeCall
  outcome : Except ManagedException α

/-- The Windows `FAILED` test of an `HRESULT`: the value is negative. -/
def FAILED (hr : Int) : Bool := decide (hr < 0)

/-- The code after `GraphicsException::CheckHResult( hr )` runs only when the
check returned; otherwise the exception leaves the method. -/
def afterCheck {α : Type} (CheckHResult : Int → Except ManagedException Unit) (hr : Int)
    (rest : α) : Except ManagedException α :=
  match CheckHResult hr with
  | .error e => .error e
  | .ok _ => .ok rest

namespace Font

/-- The constructor `Font::Font( ID3DXFont* font )`; `none` is `NULL`. -/
def ctorNative (font : Option ID3DXFont) : Traced Font :=
  match font with
  | none => { calls := [], outcome := .error (ManagedException.ArgumentNullException "font") }
  | some f => { calls := [], outcome := .ok { m_Font := f } }

/-- The constructor `Font::Font( Device^ device, int height, ... )`;
`D3DXCreateFont` gives the `HRESULT` and the font it stores in the out pointer. -/
def ctorDevice (D3DXCreateFont : Ptr → FontArguments → Int × ID3DXFont)
    (CheckHResult : Int → Except ManagedException Unit)
    (device : Device) (args : FontArguments) : Traced Font :=
  let r := D3DXCreateFont device.InternalPointer args
  { calls := [NativeCall.D3DXCreateFont device.InternalPointer args],
    outcome := afterCheck CheckHResult r.1 { m_Font := r.2 } }

/-- The conversion `RECT nativeRect = { rect.Left, rect.Top, rect.Right, rect.Bottom }`. -/
def toNativeRect (rect : Rectangle) : RECT :=
  { left := rect.Left, top := rect.Top, right := rect.Right, bottom := rect.Bottom }

/-- The conversion `Rectangle( left, top, right - left, bottom - top )`. -/
def fromNativeRect (nativeRect : RECT) : Rectangle :=
  { X := nativeRect.left, Y := nativeRect.top,
    Width := sub32 nativeRect.right nativeRect.left,
    Height := sub32 nativeRect.bottom nativeRect.top }

/-- The expression `sprite != nullptr ? sprite->InternalPointer : NULL`. -/
def spritePointer (sprite : Option Sprite) : Ptr :=
  match sprite with
  | some s => s.InternalPointer
  | none => 0

/-- The method `Font::DrawText( Sprite^, String^, Rectangle, DrawTextFormat, int )`. -/
def DrawText (self : Font) (sprite : Option Sprite) (text : ManagedString) (rect : Rectangle)
    (format : DrawTextFormat) (color : Int) : Traced Int :=
  let spritePtr := spritePointer sprite
  let nativeRect := toNativeRect rect
  { calls := [NativeCall.DrawTextW spritePtr text text.length nativeRect format color],
    outcome := .ok (self.m_Font.DrawTextW spritePtr text text.length nativeRect format color).1 }

/-- The method `Font::DrawText( Sprite^, String^, Rectangle, DrawTextFormat, Color )`. -/
def DrawTextColor (self : Font) (sprite : Option Sprite) (text : ManagedString)
    (rect : Rectangle) (format : DrawTextFormat) (color : Color) : Traced Int :=
  self.DrawText sprite text rect format color.ToArgb

/-- The method `Font::DrawText( Sprite^, String^, int x, int y, int color )`. -/
def DrawTextXY (self : Font) (sprite : Option Sprite) (text : ManagedString) (x y : Int)
    (color : Int) : Traced Int :=
  let rect : Rectangle := { X := x, Y := y, Width := 0, Height := 0 }
  self.DrawText sprite text rect DrawTextFormat.NoClip color

/-- The method `Font::DrawText( Sprite^, String^, int x, int y, Color color )`. -/
def DrawTextXYColor (self : Font) (sprite : Option Sprite) (text : ManagedString) (x y : Int)
    (color : Color) : Traced Int :=
  self.DrawTextXY sprite text x y color.ToArgb

/-- The method `Font::MeasureString`; `uninitialised` is what the local
`RECT nativeRect` holds before the native call writes it. -/
def MeasureString (self : Font) (uninitialised : RECT) (sprite : Option Sprite)
    (text : ManagedString) (format : DrawTextFormat) : Traced Rectangle :=
  let spritePtr := spritePointer sprite
  let fmt := DrawTextFormat.or format DrawTextFormat.CalcRect
  let nativeRect := (self.m_Font.DrawTextW spritePtr text text.length uninitialised fmt 0).2
  { calls := [NativeCall.DrawTextW spritePtr text text.length uninitialised fmt 0],
    outcome := .ok (fromNativeRect nativeRect) }

/-- The `RECT` the native call of `MeasureString` leaves in `nativeRect`. -/
def measuredRect (self : Font) (uninitialised : RECT) (sprite : Option Sprite)
    (text : ManagedString) (format : DrawTextFormat) : RECT :=
  (self.m_Font.DrawTextW (spritePointer sprite) text text.length uninitialised
    (DrawTextFormat.or format DrawTextFormat.CalcRect) 0).2

/-- The method `Font::PreloadCharacters`. -/
def PreloadCharacters (CheckHResult : Int → Except ManagedException Unit) (self : Font)
    (first last : Int) : Traced Unit :=
  let hr := self.m_Font.PreloadCharacters first last
  { calls := [NativeCall.PreloadCharacters first last], outcome := afterCheck CheckHResult hr () }

/-- The method `Font::PreloadGlyphs`. -/
def PreloadGlyphs (CheckHResult : Int → Except ManagedException Unit) (self : Font)
    (first last : Int) : Traced Unit :=
  let hr := self.m_Font.PreloadGlyphs first last
  { calls := [NativeCall.PreloadGlyphs first last], outcome := afterCheck CheckHResult hr () }

/-- The method `Font::PreloadText`. -/
def PreloadText (CheckHResult : Int → Except ManagedException Unit) (self : Font)
    (text : ManagedString) : Traced Unit :=
  let hr := self.m_Font.PreloadTextW text text.length
  { calls := [NativeCall.PreloadTextW text text.length], outcome := afterCheck CheckHResult hr () }

/-- The method `Font::OnLostDevice`. -/
def OnLostDevice (CheckHResult : Int → Except ManagedException Unit) (self : Font) :
    Traced Unit :=
  let hr := self.m_Font.OnLostDevice
  { calls := [NativeCall.OnLostDevice], outcome := afterCheck CheckHResult hr () }

/-- The method `Font::OnResetDevice`. -/
def OnResetDevice (CheckHResult : Int → Except ManagedException Unit) (self : Font) :
    Traced Unit :=
  let hr := self.m_Font.OnResetDevice
  { calls := [NativeCall.OnResetDevice], outcome := afterCheck CheckHResult hr () }

/-- The field copy of `Font::Description::get`. -/
def copyDescription (desc : D3DXFONT_DESC) : FontDescription :=
  { Height := desc.Height, Width := desc.Width, Weight := desc.Weight,
    MipLevels := desc.MipLevels, Italic := decide (desc.Italic > 0),
    CharSet := desc.CharSet, OutputPrecision := desc.OutputPrecision,
    Quality := desc.Quality, PitchAndFamily := desc.PitchAndFamily,
    FaceName := desc.FaceName }

/-- The property getter `Font::Description::get`. -/
def Description (CheckHResult : Int → Except ManagedException Unit) (self : Font) :
    Traced FontDescription :=
  let r := self.m_Font.GetDesc
  { calls := [NativeCall.GetDesc], outcome := afterCheck CheckHResult r.1 (copyDescription r.2) }

/-- The property getter `Font::DeviceContext::get`. -/
def DeviceContext (self : Font) : Traced Ptr :=
  { calls := [NativeCall.GetDC], outcome := .ok self.m_Font.GetDC }

end Font

/-- The `HRESULT` value `E_FAIL`, as a signed 32-bit integer. -/
def E_FAIL : Int := -2147467259

/-- A `D3DXFONT_DESC` with every field zero and an empty face name. -/
def zeroDescription : D3DXFONT_DESC :=
  { Height := 0, Width := 0, Weight := 0, MipLevels := 0, Italic := 0,
    CharSet := 0, OutputPrecision := 0, Quality := 0, PitchAndFamily := 0, FaceName := [] }

/-- A native font every entry point of which returns the given value and
leaves the `RECT` it was handed unchanged. -/
def constantFont (status : Int) : ID3DXFont :=
  { DrawTextW := fun _ _ _ rect _ _ => (status, rect),
    PreloadCharacters := fun _ _ => status,
    PreloadGlyphs := fun _ _ => status,
    PreloadTextW := fun _ _ => status,
    OnLostDevice := status,
    OnResetDevice := status,
    GetDesc := (status, zeroDescription),
    GetDC := 0 }

/-- A `CheckHResult` that raises `GraphicsException` exactly on failing codes. -/
def throwOnFailed (hr : Int) : Except ManagedException Unit :=
  if FAILED hr then .error (ManagedException.GraphicsException hr) else .ok ()

/-! # Theorems -/

/-! ## 32-bit arithmetic -/

theorem wrap32_of_isInt32 (v : Int) (h : isInt32 v) : wrap32 v = v := by
  unfold isInt32 at h
  unfold wrap32
  omega

theorem wrap32_congr (a b : Int) (h : a % 4294967296 = b % 4294967296) :
    wrap32 a = wrap32 b := by
  unfold wrap32
  omega

theorem wrap32_isInt32 (v : Int) : isInt32 (wrap32 v) := by
  unfold isInt32 wrap32
  omega

/-! ## Rational -/

/-- C1: `Rational.Equals(a, b)` and `a.Equals(b)` are true exactly when the
numerators are equal and the denominators are equal; nothing is reduced to
lowest terms, so `Rational(1, 2)` and `Rational(2, 4)` are not equal. -/
theorem C1_rational_equals_fieldwise (a b : Rational) :
    (Rational.EqualsStatic a b = true ↔
        a.Numerator = b.Numerator ∧ a.Denominator = b.Denominator)
    ∧ (a.Equals b = true ↔ a.Numerator = b.Numerator ∧ a.Denominator = b.Denominator)
    ∧ Rational.EqualsStatic (Rational.ctor 1 2) (Rational.ctor 2 4) = false
    ∧ (Rational.ctor 1 2).Equals (Rational.ctor 2 4) = false := by
  refine ⟨?_, ?_, ?_, ?_⟩
  · simp [Rational.EqualsStatic, Rational.Numerator, Rational.Denominator]
  · simp [Rational.Equals, Rational.Numerator, Rational.Denominator]
  · decide
  · decide

/-- C10: the hash code of `Rational` does not tell numerator from denominator:
`Rational(a, b)` and `Rational(b, a)` hash alike, any two values whose
numerator + denominator agree modulo 2^32 hash alike, and `Rational(1, 2)`
and `Rational(2, 1)` are unequal values with one hash code. -/
theorem C10_rational_hash_collides (r s : Rational)
    (h : (r.numerator + r.denominator) % 4294967296
      = (s.numerator + s.denominator) % 4294967296) :
    r.GetHashCode = s.GetHashCode
    ∧ (∀ a b : Int, (Rational.ctor a b).GetHashCode = (Rational.ctor b a).GetHashCode)
    ∧ (Rational.EqualsStatic (Rational.ctor 1 2) (Rational.ctor 2 1) = false
        ∧ (Rational.ctor 1 2).GetHashCode = (Rational.ctor 2 1).GetHashCode)
    ∧ (∃ x y : Rational, Rational.EqualsStatic x y = false ∧ x.Equals y = false
        ∧ x.GetHashCode = y.GetHashCode) := by
  refine ⟨?_, ?_, ⟨by decide, by decide⟩, ⟨Rational.ctor 1 2, Rational.ctor 2 1, ?_, ?_, ?_⟩⟩
  · exact wrap32_congr _ _ h
  · intro a b
    simp only [Rational.GetHashCode, Rational.ctor, add32, int32GetHashCode]
    rw [Int.add_comm]
  · decide
  · decide
  · decide

theorem C10_rational_hash_collides_witness :
    ((Rational.ctor 2147483647 1).numerator + (Rational.ctor 2147483647 1).denominator)
        % 4294967296
      = ((Rational.ctor (-2147483648) 0).numerator
          + (Rational.ctor (-2147483648) 0).denominator) % 4294967296
    ∧ (Rational.ctor 2147483647 1).GetHashCode = (Rational.ctor (-2147483648) 0).GetHashCode :=
  ⟨by decide,
    (C10_rational_hash_collides (Rational.ctor 2147483647 1) (Rational.ctor (-2147483648) 0)
      (by decide)).1⟩

/-! ## AttributeWeights -/

theorem AttributeWeights.equalsStatic_iff {F : Type} [BEq F] (a b : AttributeWeights F) :
    AttributeWeights.EqualsStatic a b = true ↔
      ∀ fld : AttributeWeights.Field, (a.get fld == b.get fld) = true := by
  constructor
  · intro h fld
    simp only [AttributeWeights.EqualsStatic, Bool.and_eq_true] at h
    cases fld <;> simp only [AttributeWeights.get] <;> tauto
  · intro h
    simp only [AttributeWeights.EqualsStatic, Bool.and_eq_true]
    have h1 := h .Position
    have h2 := h .Boundary
    have h3 := h .Normal
    have h4 := h .Diffuse
    have h5 := h .Specular
    have h6 := h .TextureCoordinate1
    have h7 := h .TextureCoordinate2
    have h8 := h .TextureCoordinate3
    have h9 := h .TextureCoordinate4
    have h10 := h .TextureCoordinate5
    have h11 := h .TextureCoordinate6
    have h12 := h .TextureCoordinate7
    have h13 := h .TextureCoordinate8
    have h14 := h .Tangent
    have h15 := h .Binormal
    simp only [AttributeWeights.get] at h1 h2 h3 h4 h5 h6 h7 h8 h9 h10 h11 h12 h13 h14 h15
    tauto

theorem AttributeWeights.equals_eq_equalsStatic {F : Type} [BEq F] (a b : AttributeWeights F) :
    a.Equals b = AttributeWeights.EqualsStatic a b := rfl

theorem AttributeWeights.get_set_same {F : Type} (a : AttributeWeights F)
    (fld : AttributeWeights.Field) (v : F) : (a.set fld v).get fld = v := by
  cases fld <;> rfl

/-- C2: `AttributeWeights.Equals(a, b)` and `a.Equals(b)` are true exactly when
all fifteen fields are pairwise equal under the `==` of the field type
(Position, Boundary, Normal, Diffuse, Specular, TextureCoordinate1 to 8,
Tangent, Binormal); assigning any one field a value that is not `==` to the
old one makes the value unequal to the original. -/
theorem C2_attributeWeights_equals_fieldwise {F : Type} [BEq F] (a b : AttributeWeights F)
    (fld : AttributeWeights.Field) (v : F) (hchanged : (a.get fld == v) = false) :
    (AttributeWeights.EqualsStatic a b = true ↔
      ((a.Position == b.Position) = true ∧ (a.Boundary == b.Boundary) = true
        ∧ (a.Normal == b.Normal) = true ∧ (a.Diffuse == b.Diffuse) = true
        ∧ (a.Specular == b.Specular) = true
        ∧ (a.TextureCoordinate1 == b.TextureCoordinate1) = true
        ∧ (a.TextureCoordinate2 == b.TextureCoordinate2) = true
        ∧ (a.TextureCoordinate3 == b.TextureCoordinate3) = true
        ∧ (a.TextureCoordinate4 == b.TextureCoordinate4) = true
        ∧ (a.TextureCoordinate5 == b.TextureCoordinate5) = true
        ∧ (a.TextureCoordinate6 == b.TextureCoordinate6) = true
        ∧ (a.TextureCoordinate7 == b.TextureCoordinate7) = true
        ∧ (a.TextureCoordinate8 == b.TextureCoordinate8) = true
        ∧ (a.Tangent == b.Tangent) = true ∧ (a.Binormal == b.Binormal) = true))
    ∧ (a.Equals b = true ↔ AttributeWeights.EqualsStatic a b = true)
    ∧ AttributeWeights.EqualsStatic a (a.set fld v) = false
    ∧ a.Equals (a.set fld v) = false := by
  have hne : AttributeWeights.EqualsStatic a (a.set fld v) = false := by
    cases hE : AttributeWeights.EqualsStatic a (a.set fld v)
    · rfl
    · have h1 := (AttributeWeights.equalsStatic_iff a (a.set fld v)).1 hE fld
      rw [AttributeWeights.get_set_same, hchanged] at h1
      exact absurd h1 (by simp)
  refine ⟨?_, ?_, hne, ?_⟩
  · simp only [AttributeWeights.EqualsStatic, Bool.and_eq_true, and_assoc]
  · rw [AttributeWeights.equals_eq_equalsStatic]
  · rw [AttributeWeights.equals_eq_equalsStatic]; exact hne

theorem C2_attributeWeights_equals_fieldwise_witness :
    (AttributeWeights.sample.get AttributeWeights.Field.Tangent == (99 : Int)) = false
    ∧ AttributeWeights.EqualsStatic AttributeWeights.sample
        (AttributeWeights.sample.set AttributeWeights.Field.Tangent 99) = false
    ∧ AttributeWeights.sample.Equals
        (AttributeWeights.sample.set AttributeWeights.Field.Tangent 99) = false :=
  ⟨by decide,
    (C2_attributeWeights_equals_fieldwise AttributeWeights.sample AttributeWeights.sample
      AttributeWeights.Field.Tangent 99 (by decide)).2.2⟩

/-! ## Hash codes and equality -/

theorem Rational.getHashCode_eq (a : Rational) :
    a.GetHashCode = wrap32 (a.Numerator + a.Denominator) := rfl

theorem Rational.eq_of_equalsStatic (a b : Rational) (h : Rational.EqualsStatic a b = true) :
    a = b := by
  cases a; cases b
  simp only [Rational.EqualsStatic, Bool.and_eq_true, beq_iff_eq] at h
  simp only [Rational.mk.injEq]
  exact h

/-- C7: hash codes are consistent with equality. For `Rational`, `GetHashCode`
is numerator + denominator in 32-bit wrap-around arithmetic and equal values
(by either `Equals`) have equal hash codes; for `AttributeWeights`, equal
values have equal hash codes provided the hash code of the field type
respects the `==` of the field type. -/
theorem C7_hash_consistent_with_equals {F : Type} [BEq F] (hash : F → Int)
    (hhash : ∀ x y : F, (x == y) = true → hash x = hash y) :
    (∀ a : Rational, a.GetHashCode = wrap32 (a.Numerator + a.Denominator))
    ∧ (∀ a b : Rational, Rational.EqualsStatic a b = true → a.GetHashCode = b.GetHashCode)
    ∧ (∀ a b : Rational, a.Equals b = true → a.GetHashCode = b.GetHashCode)
    ∧ (∀ a b : AttributeWeights F, AttributeWeights.EqualsStatic a b = true →
        AttributeWeights.GetHashCode hash a = AttributeWeights.GetHashCode hash b)
    ∧ (∀ a b : AttributeWeights F, a.Equals b = true →
        AttributeWeights.GetHashCode hash a = AttributeWeights.GetHashCode hash b) := by
  have hR : ∀ a b : Rational, Rational.EqualsStatic a b = true →
      a.GetHashCode = b.GetHashCode := by
    intro a b h
    rw [Rational.eq_of_equalsStatic a b h]
  have hA : ∀ a b : AttributeWeights F, AttributeWeights.EqualsStatic a b = true →
      AttributeWeights.GetHashCode hash a = AttributeWeights.GetHashCode hash b := by
    intro a b h
    have hf := (AttributeWeights.equalsStatic_iff a b).1 h
    have h1 := hhash _ _ (hf .Position)
    have h2 := hhash _ _ (hf .Boundary)
    have h3 := hhash _ _ (hf .Normal)
    have h4 := hhash _ _ (hf .Diffuse)
    have h5 := hhash _ _ (hf .Specular)
    have h6 := hhash _ _ (hf .TextureCoordinate1)
    have h7 := hhash _ _ (hf .TextureCoordinate2)
    have h8 := hhash _ _ (hf .TextureCoordinate3)
    have h9 := hhash _ _ (hf .TextureCoordinate4)
    have h10 := hhash _ _ (hf .TextureCoordinate5)
    have h11 := hhash _ _ (hf .TextureCoordinate6)
    have h12 := hhash _ _ (hf .TextureCoordinate7)
    have h13 := hhash _ _ (hf .TextureCoordinate8)
    have h14 := hhash _ _ (hf .Tangent)
    have h15 := hhash _ _ (hf .Binormal)
    simp only [AttributeWeights.get] at h1 h2 h3 h4 h5 h6 h7 h8 h9 h10 h11 h12 h13 h14 h15
    simp only [AttributeWeights.GetHashCode, h1, h2, h3, h4, h5, h6, h7, h8, h9, h10, h11,
      h12, h13, h14, h15]
  exact ⟨Rational.getHashCode_eq, hR, fun a b h => hR a b h, hA,
    fun a b h => hA a b ((AttributeWeights.equals_eq_equalsStatic a b) ▸ h)⟩

theorem C7_hash_consistent_with_equals_witness :
    (∀ x y : Int, (x == y) = true → int32GetHashCode x = int32GetHashCode y)
    ∧ AttributeWeights.EqualsStatic AttributeWeights.sample AttributeWeights.sample = true
    ∧ AttributeWeights.GetHashCode int32GetHashCode AttributeWeights.sample = 120
    ∧ AttributeWeights.GetHashCode int32GetHashCode AttributeWeights.sample
        = AttributeWeights.GetHashCode int32GetHashCode AttributeWeights.sample :=
  ⟨fun x y h => by rw [beq_iff_eq] at h; rw [h], by decide, by decide,
    (C7_hash_consistent_with_equals int32GetHashCode
      (fun x y h => by rw [beq_iff_eq] at h; rw [h])).2.2.2.1
      AttributeWeights.sample AttributeWeights.sample (by decide)⟩

/-- C8: all equality entry points agree, for `Rational` and for
`AttributeWeights`: `a == b`, `Equals(a, b)`, `a.Equals(b)` and
`a.Equals((Object) b)` have one value, `a != b` is the negation of `a == b`,
and `a.Equals(o)` is false when `o` is null or of another runtime type. -/
theorem C8_equality_entry_points_agree {F : Type} [BEq F] :
    (∀ a b : Rational,
        Rational.op_Equality a b = Rational.EqualsStatic a b
        ∧ Rational.EqualsStatic a b = a.Equals b
        ∧ a.Equals b = a.EqualsObject (ManagedObject.boxed b)
        ∧ Rational.op_Inequality a b = !Rational.op_Equality a b)
    ∧ (∀ a : Rational, a.EqualsObject ManagedObject.null = false
        ∧ ∀ t : Nat, a.EqualsObject (ManagedObject.otherType t) = false)
    ∧ (∀ a b : AttributeWeights F,
        AttributeWeights.op_Equality a b = AttributeWeights.EqualsStatic a b
        ∧ AttributeWeights.EqualsStatic a b = a.Equals b
        ∧ a.Equals b = a.EqualsObject (ManagedObject.boxed b)
        ∧ AttributeWeights.op_Inequality a b = !AttributeWeights.op_Equality a b)
    ∧ (∀ a : AttributeWeights F, a.EqualsObject ManagedObject.null = false
        ∧ ∀ t : Nat, a.EqualsObject (ManagedObject.otherType t) = false) :=
  ⟨fun _ _ => ⟨rfl, rfl, rfl, rfl⟩, fun _ => ⟨rfl, fun _ => rfl⟩,
    fun _ _ => ⟨rfl, rfl, rfl, rfl⟩, fun _ => ⟨rfl, fun _ => rfl⟩⟩

/-! ## Font: rectangle conversions -/

theorem Font.toNativeRect_eq (x y w h : Int) :
    Font.toNativeRect { X := x, Y := y, Width := w, Height := h }
      = { left := x, top := y, right := wrap32 (x + w), bottom := wrap32 (y + h) } := rfl

theorem Font.fromNativeRect_eq (r : RECT) :
    Font.fromNativeRect r
      = { X := r.left, Y := r.top, Width := wrap32 (r.right - r.left),
          Height := wrap32 (r.bottom - r.top) } := rfl

theorem wrap32_add_sub_cancel (x w : Int) (hw : isInt32 w) : wrap32 (wrap32 (x + w) - x) = w := by
  unfold isInt32 at hw
  unfold wrap32
  omega

/-- C9: the rectangle conversions of `Font` are inverse to each other in
32-bit arithmetic. `DrawText` hands the native call the `RECT`
{x, y, x + w, y + h}, `MeasureString` returns
Rectangle(left, top, right - left, bottom - top) of the `RECT` the native
call wrote, converting (x, y, w, h) to a `RECT` and back gives (x, y, w, h)
also when x + w or y + h wraps, and `DrawText(sprite, text, x, y, color)`
passes {x, y, x, y} with the `NoClip` format. -/
theorem C9_font_rect_conversions (font : Font) (sprite : Option Sprite) (text : ManagedString)
    (format : DrawTextFormat) (color : Int) (uninitialised : RECT) (x y w h : Int)
    (hx : isInt32 x) (hy : isInt32 y) (hw : isInt32 w) (hh : isInt32 h) :
    (font.DrawText sprite text { X := x, Y := y, Width := w, Height := h } format color).calls
        = [NativeCall.DrawTextW (Font.spritePointer sprite) text text.length
            { left := x, top := y, right := wrap32 (x + w), bottom := wrap32 (y + h) }
            format color]
    ∧ (font.MeasureString uninitialised sprite text format).outcome
        = .ok { X := (font.measuredRect uninitialised sprite text format).left,
                Y := (font.measuredRect uninitialised sprite text format).top,
                Width := wrap32 ((font.measuredRect uninitialised sprite text format).right
                  - (font.measuredRect uninitialised sprite text format).left),
                Height := wrap32 ((font.measuredRect uninitialised sprite text format).bottom
                  - (font.measuredRect uninitialised sprite text format).top) }
    ∧ Font.fromNativeRect (Font.toNativeRect { X := x, Y := y, Width := w, Height := h })
        = { X := x, Y := y, Width := w, Height := h }
    ∧ (font.DrawTextXY sprite text x y color).calls
        = [NativeCall.DrawTextW (Font.spritePointer sprite) text text.length
            { left := x, top := y, right := x, bottom := y } DrawTextFormat.NoClip color] := by
  refine ⟨rfl, rfl, ?_, ?_⟩
  · simp only [Font.toNativeRect_eq, Font.fromNativeRect_eq,
      wrap32_add_sub_cancel x w hw, wrap32_add_sub_cancel y h hh]
  · have h1 : wrap32 (x + 0) = x := by rw [Int.add_zero]; exact wrap32_of_isInt32 x hx
    have h2 : wrap32 (y + 0) = y := by rw [Int.add_zero]; exact wrap32_of_isInt32 y hy
    simp only [Font.DrawTextXY, Font.DrawText, Font.toNativeRect_eq, h1, h2]

theorem C9_font_rect_conversions_witness :
    (isInt32 2147483647 ∧ isInt32 (-5) ∧ isInt32 10 ∧ isInt32 (-2147483648))
    ∧ Font.toNativeRect { X := 2147483647, Y := -5, Width := 10, Height := -2147483648 }
        = { left := 2147483647, top := -5, right := -2147483639, bottom := 2147483643 }
    ∧ Font.fromNativeRect
        (Font.toNativeRect { X := 2147483647, Y := -5, Width := 10, Height := -2147483648 })
        = { X := 2147483647, Y := -5, Width := 10, Height := -2147483648 } :=
  ⟨by decide, by decide,
    (C9_font_rect_conversions { m_Font := constantFont 0 } none [] DrawTextFormat.NoClip 0
      { left := 0, top := 0, right := 0, bottom := 0 } 2147483647 (-5) 10 (-2147483648)
      (by decide) (by decide) (by decide) (by decide)).2.2.1⟩

/-! ## Font: native calls and status codes -/

/-- C6 (counterexample): with a native font whose `DrawTextW` returns the
failing code `E_FAIL`, `DrawText` returns that value to its caller and
`MeasureString` returns a rectangle; neither ends with an exception. The same
holds when `DrawTextW` returns 0. -/
theorem C6_counterexample_drawText_returns_normally :
    FAILED E_FAIL = true
    ∧ (Font.DrawText { m_Font := constantFont E_FAIL } none [72, 105]
        { X := 1, Y := 2, Width := 3, Height := 4 } DrawTextFormat.NoClip 0).outcome
        = .ok E_FAIL
    ∧ (Font.MeasureString { m_Font := constantFont E_FAIL }
        { left := 0, top := 0, right := 0, bottom := 0 } none [72, 105]
        DrawTextFormat.NoClip).outcome
        = .ok { X := 0, Y := 0, Width := 0, Height := 0 }
    ∧ (Font.DrawText { m_Font := constantFont 0 } none [72, 105]
        { X := 1, Y := 2, Width := 3, Height := 4 } DrawTextFormat.NoClip 0).outcome
        = .ok 0 := by
  refine ⟨by decide, rfl, ?_, rfl⟩
  exact congrArg Except.ok (by decide)

/-- C6 (amended): every listed method of `Font` makes exactly one native call.
The device constructor, `PreloadCharacters`, `PreloadGlyphs`, `PreloadText`,
`OnLostDevice`, `OnResetDevice` and the `Description` getter hand the returned
`HRESULT` to `CheckHResult` and end with an exception whenever the code is a
failing one (`CheckHResult` raising on failing codes); `DrawText` returns the
value of the native call to its caller and `MeasureString` returns the
measured rectangle, without a check. -/
theorem C6_font_single_call_and_check
    (CheckHResult : Int → Except ManagedException Unit)
    (hthrow : ∀ hr : Int, FAILED hr = true → ∃ e, CheckHResult hr = .error e)
    (D3DXCreateFont : Ptr → FontArguments → Int × ID3DXFont)
    (device : Device) (args : FontArguments) (font : Font) (sprite : Option Sprite)
    (text : ManagedString) (rect : Rectangle) (format : DrawTextFormat) (color : Int)
    (uninitialised : RECT) (first last : Int) :
    ((Font.ctorDevice D3DXCreateFont CheckHResult device args).calls
        = [NativeCall.D3DXCreateFont device.InternalPointer args]
      ∧ (FAILED (D3DXCreateFont device.InternalPointer args).1 = true →
          ∃ e, (Font.ctorDevice D3DXCreateFont CheckHResult device args).outcome = .error e))
    ∧ ((font.PreloadCharacters CheckHResult first last).calls
        = [NativeCall.PreloadCharacters first last]
      ∧ (FAILED (font.m_Font.PreloadCharacters first last) = true →
          ∃ e, (font.PreloadCharacters CheckHResult first last).outcome = .error e))
    ∧ ((font.PreloadGlyphs CheckHResult first last).calls
        = [NativeCall.PreloadGlyphs first last]
      ∧ (FAILED (font.m_Font.PreloadGlyphs first last) = true →
          ∃ e, (font.PreloadGlyphs CheckHResult first last).outcome = .error e))
    ∧ ((font.PreloadText CheckHResult text).calls = [NativeCall.PreloadTextW text text.length]
      ∧ (FAILED (font.m_Font.PreloadTextW text text.length) = true →
          ∃ e, (font.PreloadText CheckHResult text).outcome = .error e))
    ∧ ((font.OnLostDevice CheckHResult).calls = [NativeCall.OnLostDevice]
      ∧ (FAILED font.m_Font.OnLostDevice = true →
          ∃ e, (font.OnLostDevice CheckHResult).outcome = .error e))
    ∧ ((font.OnResetDevice CheckHResult).calls = [NativeCall.OnResetDevice]
      ∧ (FAILED font.m_Font.OnResetDevice = true →
          ∃ e, (font.OnResetDevice CheckHResult).outcome = .error e))
    ∧ ((font.Description CheckHResult).calls = [NativeCall.GetDesc]
      ∧ (FAILED font.m_Font.GetDesc.1 = true →
          ∃ e, (font.Description CheckHResult).outcome = .error e))
    ∧ ((font.DrawText sprite text rect format color).calls
        = [NativeCall.DrawTextW (Font.spritePointer sprite) text text.length
            (Font.toNativeRect rect) format color]
      ∧ (font.DrawText sprite text rect format color).outcome
        = .ok (font.m_Font.DrawTextW (Font.spritePointer sprite) text text.length
            (Font.toNativeRect rect) format color).1)
    ∧ ((font.MeasureString uninitialised sprite text format).calls
        = [NativeCall.DrawTextW (Font.spritePointer sprite) text text.length uninitialised
            (DrawTextFormat.or format DrawTextFormat.CalcRect) 0]
      ∧ (font.MeasureString uninitialised sprite text format).outcome
        = .ok (Font.fromNativeRect (font.measuredRect uninitialised sprite text format))) := by
  have key : ∀ {α : Type} (hr : Int) (rest : α), FAILED hr = true →
      ∃ e, afterCheck CheckHResult hr rest = .error e := by
    intro α hr rest hf
    obtain ⟨e, he⟩ := hthrow hr hf
    exact ⟨e, by simp only [afterCheck, he]⟩
  exact ⟨⟨rfl, key _ _⟩, ⟨rfl, key _ _⟩, ⟨rfl, key _ _⟩, ⟨rfl, key _ _⟩, ⟨rfl, key _ _⟩,
    ⟨rfl, key _ _⟩, ⟨rfl, key _ _⟩, ⟨rfl, rfl⟩, ⟨rfl, rfl⟩⟩

theorem C6_font_single_call_and_check_witness :
    (∀ hr : Int, FAILED hr = true → ∃ e, throwOnFailed hr = .error e)
    ∧ FAILED (constantFont E_FAIL).OnLostDevice = true
    ∧ ∃ e, (Font.OnLostDevice throwOnFailed { m_Font := constantFont E_FAIL }).outcome
        = .error e :=
  ⟨fun hr h => ⟨ManagedException.GraphicsException hr, by simp only [throwOnFailed, h, if_true]⟩,
    by decide,
    (C6_font_single_call_and_check throwOnFailed
      (fun hr h => ⟨ManagedException.GraphicsException hr, by simp only [throwOnFailed, h, if_true]⟩)
      (fun _ _ => (E_FAIL, constantFont E_FAIL)) { InternalPointer := 1 }
      { height := 12, width := 0, weight := 400, mipLevels := 1, italic := false, charSet := 0,
        outputPrecision := 0, quality := 0, pitchAndFamily := 0, faceName := [65] }
      { m_Font := constantFont E_FAIL } none [72, 105]
      { X := 1, Y := 2, Width := 3, Height := 4 } DrawTextFormat.NoClip 0
      { left := 0, top := 0, right := 0, bottom := 0 } 32 126).2.2.2.2.1.2 (by decide)⟩

/-! ## CommandList.FromPointer -/

theorem CommandList.fromPointer_null (rt : Runtime) :
    CommandList.FromPointer rt 0 = (.ok none, rt) := rfl

theorem CommandList.fromPointer_hit (rt : Runtime) (p : Ptr) (w : ComObject) (hp : p ≠ 0)
    (hfind : ObjectTable.Find rt p = some w) (hty : w.runtimeType = WrapperType.CommandList) :
    CommandList.FromPointer rt p = (.ok (some w), Release rt p) := by
  simp only [CommandList.FromPointer, hp, if_false, hfind, safe_cast_CommandList, hty, if_true]

theorem CommandList.fromPointer_otherType (rt : Runtime) (p : Ptr) (w : ComObject) (hp : p ≠ 0)
    (hfind : ObjectTable.Find rt p = some w) (hty : w.runtimeType ≠ WrapperType.CommandList) :
    CommandList.FromPointer rt p = (.error ManagedException.InvalidCastException, rt) := by
  simp only [CommandList.FromPointer, hp, if_false, hfind, safe_cast_CommandList, hty]

theorem CommandList.fromPointer_miss (rt : Runtime) (p : Ptr) (hp : p ≠ 0)
    (hfind : ObjectTable.Find rt p = none) :
    CommandList.FromPointer rt p
      = (.ok (some (ComObject.Construct rt p).1), (ComObject.Construct rt p).2) := by
  simp only [CommandList.FromPointer, hp, if_false, hfind, safe_cast_CommandList,
    CommandList.ctor]

theorem CommandList.fromPointerIntPtr_zero (rt : Runtime) :
    CommandList.FromPointerIntPtr rt 0
      = (.error (ManagedException.ArgumentNullException "pointer"), rt) := rfl

theorem CommandList.fromPointerIntPtr_hit (rt : Runtime) (p : Ptr) (w : ComObject) (hp : p ≠ 0)
    (hfind : ObjectTable.Find rt p = some w) (hty : w.runtimeType = WrapperType.CommandList) :
    CommandList.FromPointerIntPtr rt p = (.ok (some w), rt) := by
  simp only [CommandList.FromPointerIntPtr, hp, if_false, hfind, safe_cast_CommandList, hty,
    if_true]

theorem CommandList.fromPointerIntPtr_otherType (rt : Runtime) (p : Ptr) (w : ComObject)
    (hp : p ≠ 0) (hfind : ObjectTable.Find rt p = some w)
    (hty : w.runtimeType ≠ WrapperType.CommandList) :
    CommandList.FromPointerIntPtr rt p
      = (.error ManagedException.InvalidCastException, rt) := by
  simp only [CommandList.FromPointerIntPtr, hp, if_false, hfind, safe_cast_CommandList, hty]

theorem CommandList.fromPointerIntPtr_miss (rt : Runtime) (p : Ptr) (hp : p ≠ 0)
    (hfind : ObjectTable.Find rt p = none) :
    CommandList.FromPointerIntPtr rt p
      = (.ok (some (ComObject.Construct rt p).1), (ComObject.Construct rt p).2) := by
  simp only [CommandList.FromPointerIntPtr, hp, if_false, hfind, safe_cast_CommandList,
    CommandList.ctorIntPtr]

/-- C3 (counterexample): the table has an entry for the pointer 5, a wrapper
that is not a `CommandList`; `FromPointer` ends with `InvalidCastException`,
returns no wrapper and leaves the reference count of the pointer as it was. -/
theorem C3_counterexample_entry_of_other_type :
    ObjectTable.Find Runtime.withOtherWrapper 5 = some sampleOtherWrapper
    ∧ (CommandList.FromPointer Runtime.withOtherWrapper 5).1
        = .error ManagedException.InvalidCastException
    ∧ (CommandList.FromPointer Runtime.withOtherWrapper 5).2.refCount 5
        = Runtime.withOtherWrapper.refCount 5 := by
  refine ⟨by decide, ?_, ?_⟩
  · rw [CommandList.fromPointer_otherType Runtime.withOtherWrapper 5 sampleOtherWrapper
      (by decide) (by decide) (by decide)]
  · rw [CommandList.fromPointer_otherType Runtime.withOtherWrapper 5 sampleOtherWrapper
      (by decide) (by decide) (by decide)]

/-- C3 (amended): `FromPointer( ID3D11CommandList* p )` returns null when p is
null; when the table has an entry for p that is a `CommandList` it returns
that wrapper and decrements the reference count of p by exactly one, every
other count, the table and the number of wrappers unchanged; when the entry
is a wrapper of another class it ends with `InvalidCastException` and changes
nothing; when the table has no entry it constructs a new `CommandList`
wrapper for p, registers it and leaves every reference count unchanged. -/
theorem C3_fromPointer_native (rt : Runtime) (p : Ptr) :
    (p = 0 → CommandList.FromPointer rt p = (.ok none, rt))
    ∧ (∀ w : ComObject, p ≠ 0 → ObjectTable.Find rt p = some w →
        w.runtimeType = WrapperType.CommandList →
        (CommandList.FromPointer rt p).1 = .ok (some w)
        ∧ (CommandList.FromPointer rt p).2.refCount p = rt.refCount p - 1
        ∧ (∀ q : Ptr, q ≠ p → (CommandList.FromPointer rt p).2.refCount q = rt.refCount q)
        ∧ (CommandList.FromPointer rt p).2.table = rt.table
        ∧ (CommandList.FromPointer rt p).2.constructed = rt.constructed)
    ∧ (∀ w : ComObject, p ≠ 0 → ObjectTable.Find rt p = some w →
        w.runtimeType ≠ WrapperType.CommandList →
        CommandList.FromPointer rt p = (.error ManagedException.InvalidCastException, rt))
    ∧ (p ≠ 0 → ObjectTable.Find rt p = none →
        (CommandList.FromPointer rt p).1
          = .ok (some { identity := rt.constructed, runtimeType := WrapperType.CommandList,
                        pointer := p })
        ∧ (CommandList.FromPointer rt p).2.refCount = rt.refCount
        ∧ (CommandList.FromPointer rt p).2.constructed = rt.constructed + 1
        ∧ (CommandList.FromPointer rt p).2.table
          = (p, { identity := rt.constructed, runtimeType := WrapperType.CommandList,
                  pointer := p }) :: rt.table) := by
  refine ⟨?_, ?_, ?_, ?_⟩
  · intro hp
    rw [hp]
    exact CommandList.fromPointer_null rt
  · intro w hp hfind hty
    rw [CommandList.fromPointer_hit rt p w hp hfind hty]
    refine ⟨rfl, ?_, ?_, rfl, rfl⟩
    · simp only [Release, if_true]
    · intro q hq
      simp only [Release, hq, if_false]
  · intro w hp hfind hty
    exact CommandList.fromPointer_otherType rt p w hp hfind hty
  · intro hp hfind
    rw [CommandList.fromPointer_miss rt p hp hfind]
    exact ⟨rfl, rfl, rfl, rfl⟩

theorem C3_fromPointer_native_witness :
    ((5 : Ptr) ≠ 0 ∧ ObjectTable.Find Runtime.withCommandList 5 = some sampleCommandList
      ∧ sampleCommandList.runtimeType = WrapperType.CommandList)
    ∧ ((CommandList.FromPointer Runtime.withCommandList 5).1 = .ok (some sampleCommandList)
      ∧ (CommandList.FromPointer Runtime.withCommandList 5).2.refCount 5 = 3 - 1)
    ∧ ObjectTable.Find Runtime.initial 5 = none
    ∧ (CommandList.FromPointer Runtime.initial 5).1
        = .ok (some { identity := 0, runtimeType := WrapperType.CommandList, pointer := 5 }) :=
  ⟨⟨by decide, by decide, by decide⟩,
    ⟨((C3_fromPointer_native Runtime.withCommandList 5).2.1 sampleCommandList
        (by decide) (by decide) (by decide)).1,
      ((C3_fromPointer_native Runtime.withCommandList 5).2.1 sampleCommandList
        (by decide) (by decide) (by decide)).2.1⟩,
    by decide,
    ((C3_fromPointer_native Runtime.initial 5).2.2.2 (by decide) (by decide)).1⟩

/-- C5 (counterexample): the pointer 5 is not zero and the table registers for
it a wrapper that is not a `CommandList`; `FromPointer( IntPtr )` returns no
`CommandList` but ends with `InvalidCastException`. -/
theorem C5_counterexample_entry_of_other_type :
    (5 : Ptr) ≠ 0
    ∧ ObjectTable.Find Runtime.withOtherWrapper 5 = some sampleOtherWrapper
    ∧ (CommandList.FromPointerIntPtr Runtime.withOtherWrapper 5).1
        = .error ManagedException.InvalidCastException
    ∧ ¬ ∃ w : ComObject,
        (CommandList.FromPointerIntPtr Runtime.withOtherWrapper 5).1 = .ok (some w) := by
  have h := CommandList.fromPointerIntPtr_otherType Runtime.withOtherWrapper 5
    sampleOtherWrapper (by decide) (by decide) (by decide)
  refine ⟨by decide, by decide, ?_, ?_⟩
  · rw [h]
  · rintro ⟨w, hw⟩
    rw [h] at hw
    exact absurd hw (by simp)

/-- C5 (amended): `FromPointer( IntPtr pointer )` ends with
`ArgumentNullException` exactly when the pointer is zero; for a non-zero
pointer whose table entry is a `CommandList` it returns that wrapper and
changes nothing, no reference count either; when the table has no entry it
returns a new, registered `CommandList` wrapper; when the entry is a wrapper
of another class it ends with `InvalidCastException`. -/
theorem C5_fromPointer_intPtr (rt : Runtime) (p : Ptr) :
    ((∃ name : String, (CommandList.FromPointerIntPtr rt p).1
        = .error (ManagedException.ArgumentNullException name)) ↔ p = 0)
    ∧ (∀ w : ComObject, p ≠ 0 → ObjectTable.Find rt p = some w →
        w.runtimeType = WrapperType.CommandList →
        CommandList.FromPointerIntPtr rt p = (.ok (some w), rt))
    ∧ (p ≠ 0 → ObjectTable.Find rt p = none →
        (CommandList.FromPointerIntPtr rt p).1
          = .ok (some { identity := rt.constructed, runtimeType := WrapperType.CommandList,
                        pointer := p })
        ∧ (CommandList.FromPointerIntPtr rt p).2.constructed = rt.constructed + 1
        ∧ (CommandList.FromPointerIntPtr rt p).2.table
          = (p, { identity := rt.constructed, runtimeType := WrapperType.CommandList,
                  pointer := p }) :: rt.table)
    ∧ (∀ w : ComObject, p ≠ 0 → ObjectTable.Find rt p = some w →
        w.runtimeType ≠ WrapperType.CommandList →
        CommandList.FromPointerIntPtr rt p
          = (.error ManagedException.InvalidCastException, rt)) := by
  refine ⟨⟨?_, ?_⟩, ?_, ?_, ?_⟩
  · rintro ⟨name, hname⟩
    by_contra hp
    cases hfind : ObjectTable.Find rt p with
    | none =>
      rw [CommandList.fromPointerIntPtr_miss rt p hp hfind] at hname
      exact absurd hname (by simp)
    | some w =>
      by_cases hty : w.runtimeType = WrapperType.CommandList
      · rw [CommandList.fromPointerIntPtr_hit rt p w hp hfind hty] at hname
        exact absurd hname (by simp)
      · rw [CommandList.fromPointerIntPtr_otherType rt p w hp hfind hty] at hname
        exact absurd hname (by simp)
  · intro hp
    rw [hp]
    exact ⟨"pointer", rfl⟩
  · intro w hp hfind hty
    exact CommandList.fromPointerIntPtr_hit rt p w hp hfind hty
  · intro hp hfind
    rw [CommandList.fromPointerIntPtr_miss rt p hp hfind]
    exact ⟨rfl, rfl, rfl⟩
  · intro w hp hfind hty
    exact CommandList.fromPointerIntPtr_otherType rt p w hp hfind hty

theorem C5_fromPointer_intPtr_witness :
    ((5 : Ptr) ≠ 0 ∧ ObjectTable.Find Runtime.withCommandList 5 = some sampleCommandList
      ∧ sampleCommandList.runtimeType = WrapperType.CommandList)
    ∧ CommandList.FromPointerIntPtr Runtime.withCommandList 5
        = (.ok (some sampleCommandList), Runtime.withCommandList)
    ∧ ObjectTable.Find Runtime.initial 5 = none
    ∧ (CommandList.FromPointerIntPtr Runtime.initial 5).1
        = .ok (some { identity := 0, runtimeType := WrapperType.CommandList, pointer := 5 }) :=
  ⟨⟨by decide, by decide, by decide⟩,
    (C5_fromPointer_intPtr Runtime.withCommandList 5).2.1 sampleCommandList
      (by decide) (by decide) (by decide),
    by decide,
    ((C5_fromPointer_intPtr Runtime.initial 5).2.2.1 (by decide) (by decide)).1⟩

/-! ## Repeated wrapping -/

theorem ObjectTable.find_release (rt : Runtime) (p q : Ptr) :
    ObjectTable.Find (Release rt p) q = ObjectTable.Find rt q := rfl

theorem ObjectTable.find_construct_same (rt : Runtime) (p : Ptr) :
    ObjectTable.Find (ComObject.Construct rt p).2 p = some (ComObject.Construct rt p).1 := by
  simp [ObjectTable.Find, ComObject.Construct, List.lookup]

theorem ObjectTable.find_construct_other (rt : Runtime) (p q : Ptr) (h : q ≠ p) :
    ObjectTable.Find (ComObject.Construct rt p).2 q = ObjectTable.Find rt q := by
  have hb : (q == p) = false := by simpa using h
  simp [ObjectTable.Find, ComObject.Construct, List.lookup, hb]

theorem NoRemoval.refl (rt : Runtime) : NoRemoval rt rt := fun _ _ h => h

theorem NoRemoval.trans {rt1 rt2 rt3 : Runtime} (h12 : NoRemoval rt1 rt2)
    (h23 : NoRemoval rt2 rt3) : NoRemoval rt1 rt3 :=
  fun q o h => h23 q o (h12 q o h)

theorem CommandList.call_cases (ov : Overload) (rt : Runtime) (p : Ptr) :
    (CommandList.call ov rt p).2.table = rt.table
    ∨ (p ≠ 0 ∧ ObjectTable.Find rt p = none
        ∧ (CommandList.call ov rt p) = (.ok (some (ComObject.Construct rt p).1),
            (ComObject.Construct rt p).2)) := by
  by_cases hp : p = 0
  · left
    subst hp
    cases ov <;> rfl
  · cases hfind : ObjectTable.Find rt p with
    | none =>
      right
      refine ⟨hp, rfl, ?_⟩
      cases ov
      · exact CommandList.fromPointer_miss rt p hp hfind
      · exact CommandList.fromPointerIntPtr_miss rt p hp hfind
    | some w =>
      left
      by_cases hty : w.runtimeType = WrapperType.CommandList
      · cases ov
        · simp only [CommandList.call, CommandList.fromPointer_hit rt p w hp hfind hty, Release]
        · simp only [CommandList.call, CommandList.fromPointerIntPtr_hit rt p w hp hfind hty]
      · cases ov
        · simp only [CommandList.call, CommandList.fromPointer_otherType rt p w hp hfind hty]
        · simp only [CommandList.call,
            CommandList.fromPointerIntPtr_otherType rt p w hp hfind hty]

theorem CommandList.noRemoval_call (ov : Overload) (rt : Runtime) (p : Ptr) :
    NoRemoval rt (CommandList.call ov rt p).2 := by
  intro q o hq
  rcases CommandList.call_cases ov rt p with h | ⟨_, hnone, heq⟩
  · simp only [ObjectTable.Find] at hq ⊢
    rw [h]
    exact hq
  · rw [heq]
    have hne : q ≠ p := by
      intro hqp
      rw [hqp, hnone] at hq
      exact absurd hq (by simp)
    rw [ObjectTable.find_construct_other rt p q hne]
    exact hq

theorem CommandList.noRemoval_runCalls (calls : List (Overload × Ptr)) (rt : Runtime) :
    NoRemoval rt (CommandList.runCalls rt calls) := by
  induction calls generalizing rt with
  | nil => exact NoRemoval.refl rt
  | cons c cs ih =>
    exact NoRemoval.trans (CommandList.noRemoval_call c.1 rt c.2) (ih _)

theorem CommandList.registered_of_call (ov : Overload) (rt : Runtime) (p : Ptr) (w : ComObject)
    (h : (CommandList.call ov rt p).1 = .ok (some w)) :
    p ≠ 0 ∧ ObjectTable.Find (CommandList.call ov rt p).2 p = some w
      ∧ w.runtimeType = WrapperType.CommandList := by
  by_cases hp : p = 0
  · subst hp
    cases ov
    · simp [CommandList.call, CommandList.fromPointer_null] at h
    · simp [CommandList.call, CommandList.fromPointerIntPtr_zero] at h
  · refine ⟨hp, ?_⟩
    cases hfind : ObjectTable.Find rt p with
    | none =>
      have heq : CommandList.call ov rt p
          = (.ok (some (ComObject.Construct rt p).1), (ComObject.Construct rt p).2) := by
        cases ov
        · exact CommandList.fromPointer_miss rt p hp hfind
        · exact CommandList.fromPointerIntPtr_miss rt p hp hfind
      rw [heq] at h ⊢
      simp only [Except.ok.injEq, Option.some.injEq] at h
      rw [ObjectTable.find_construct_same, h]
      refine ⟨rfl, ?_⟩
      rw [← h]
      rfl
    | some w0 =>
      by_cases hty : w0.runtimeType = WrapperType.CommandList
      · cases ov
        · simp only [CommandList.call, CommandList.fromPointer_hit rt p w0 hp hfind hty,
            Except.ok.injEq, Option.some.injEq] at h ⊢
          rw [ObjectTable.find_release, hfind, ← h]
          exact ⟨rfl, hty⟩
        · simp only [CommandList.call, CommandList.fromPointerIntPtr_hit rt p w0 hp hfind hty,
            Except.ok.injEq, Option.some.injEq] at h ⊢
          rw [hfind, ← h]
          exact ⟨rfl, hty⟩
      · cases ov
        · simp [CommandList.call, CommandList.fromPointer_otherType rt p w0 hp hfind hty] at h
        · simp [CommandList.call,
            CommandList.fromPointerIntPtr_otherType rt p w0 hp hfind hty] at h

theorem CommandList.call_of_registered (ov : Overload) (rt : Runtime) (p : Ptr) (w : ComObject)
    (hp : p ≠ 0) (hfind : ObjectTable.Find rt p = some w)
    (hty : w.runtimeType = WrapperType.CommandList) :
    (CommandList.call ov rt p).1 = .ok (some w)
      ∧ (CommandList.call ov rt p).2.constructed = rt.constructed
      ∧ (CommandList.call ov rt p).2.table = rt.table := by
  cases ov
  · show (CommandList.FromPointer rt p).1 = _ ∧ (CommandList.FromPointer rt p).2.constructed = _
      ∧ (CommandList.FromPointer rt p).2.table = _
    rw [CommandList.fromPointer_hit rt p w hp hfind hty]
    exact ⟨rfl, rfl, rfl⟩
  · show (CommandList.FromPointerIntPtr rt p).1 = _
      ∧ (CommandList.FromPointerIntPtr rt p).2.constructed = _
      ∧ (CommandList.FromPointerIntPtr rt p).2.table = _
    rw [CommandList.fromPointerIntPtr_hit rt p w hp hfind hty]
    exact ⟨rfl, rfl, rfl⟩

/-- C4: repeated wrapping returns the same wrapper. If a call of
`FromPointer(p)`, through either overload, returns the wrapper w, then in
every later state from which nothing was removed from the object table, in
particular after any further sequence of `FromPointer` calls, a call of
`FromPointer(p)` through either overload returns w again and constructs no
wrapper: the number of wrappers and the table stay as they were. -/
theorem C4_repeated_wrapping_same_wrapper (rt : Runtime) (p : Ptr) (ov1 : Overload)
    (w : ComObject) (hfirst : (CommandList.call ov1 rt p).1 = .ok (some w)) :
    (∀ rt2 : Runtime, NoRemoval (CommandList.call ov1 rt p).2 rt2 → ∀ ov2 : Overload,
        (CommandList.call ov2 rt2 p).1 = .ok (some w)
        ∧ (CommandList.call ov2 rt2 p).2.constructed = rt2.constructed
        ∧ (CommandList.call ov2 rt2 p).2.table = rt2.table)
    ∧ (∀ (calls : List (Overload × Ptr)) (ov2 : Overload),
        (CommandList.call ov2 (CommandList.runCalls (CommandList.call ov1 rt p).2 calls) p).1
          = .ok (some w)
        ∧ (CommandList.call ov2
            (CommandList.runCalls (CommandList.call ov1 rt p).2 calls) p).2.constructed
          = (CommandList.runCalls (CommandList.call ov1 rt p).2 calls).constructed) := by
  obtain ⟨hp, hreg, hty⟩ := CommandList.registered_of_call ov1 rt p w hfirst
  have main : ∀ rt2 : Runtime, NoRemoval (CommandList.call ov1 rt p).2 rt2 → ∀ ov2 : Overload,
      (CommandList.call ov2 rt2 p).1 = .ok (some w)
      ∧ (CommandList.call ov2 rt2 p).2.constructed = rt2.constructed
      ∧ (CommandList.call ov2 rt2 p).2.table = rt2.table :=
    fun rt2 hno ov2 => CommandList.call_of_registered ov2 rt2 p w hp (hno p w hreg) hty
  refine ⟨main, ?_⟩
  intro calls ov2
  have h := main _ (CommandList.noRemoval_runCalls calls (CommandList.call ov1 rt p).2) ov2
  exact ⟨h.1, h.2.1⟩

theorem C4_repeated_wrapping_same_wrapper_witness :
    (CommandList.call Overload.native Runtime.initial 5).1
        = .ok (some { identity := 0, runtimeType := WrapperType.CommandList, pointer := 5 })
    ∧ (CommandList.call Overload.intPtr
          (CommandList.runCalls (CommandList.call Overload.native Runtime.initial 5).2
            [(Overload.intPtr, 7), (Overload.native, 5), (Overload.native, 0)]) 5).1
        = .ok (some { identity := 0, runtimeType := WrapperType.CommandList, pointer := 5 })
    ∧ (CommandList.call Overload.intPtr
          (CommandList.runCalls (CommandList.call Overload.native Runtime.initial 5).2
            [(Overload.intPtr, 7), (Overload.native, 5), (Overload.native, 0)]) 5).2.constructed
        = (CommandList.runCalls (CommandList.call Overload.native Runtime.initial 5).2
            [(Overload.intPtr, 7), (Overload.native, 5), (Overload.native, 0)]).constructed :=
  ⟨rfl,
    (C4_repeated_wrapping_same_wrapper Runtime.initial 5 Overload.native
      { identity := 0, runtimeType := WrapperType.CommandList, pointer := 5 } rfl).2
      [(Overload.intPtr, 7), (Overload.native, 5), (Overload.native, 0)] Overload.intPtr⟩

end SlimDX
